import Mathlib

/-!
Shallow embedding of the pulse-backend monitoring engine (`src/index.ts`,
`src/lib/query.ts`) and proofs about its reconciling scheduler, probe tick,
alert state machine and uptime aggregation job.

Conventions of the embedding:
* JS `undefined`/`null` optional fields become `Option _`; optional chaining
  `a?.b` becomes `Option.bind`.
* The prisma persistence collaborator is modelled by explicit record lists
  (append-only) and a tick is modelled by the list of persistence effects it
  issues, applied to an explicit state.
* Machine integers do not overflow in the relevant ranges; timestamps are `Nat`
  (milliseconds), percentages and averages are `ℚ` (JS floating point is exact
  on the small integers and divisions the claims are about only up to the usual
  caveat; the claims here are about which rows enter a sum or divisor, not
  about rounding).
-/

namespace Pulse

/-! ### Configuration data model (prisma `Project` / `Website` / `Setting`) -/

/-- One row of the `Website` relation: `{ id, url }` as selected by
`checkWebsites` (`src/index.ts:75-78`). -/
structure Website where
  websiteId : String
  url : String
deriving DecidableEq, Repr

/-- The `Setting` relation of a project.  A missing column is `none`. -/
structure Setting where
  status : Option Bool
  interval : Option Nat
  notifyType : Option String
deriving DecidableEq, Repr

/-- One element of the `findAllWebsites()` result: a project with its
`Website` list and optional `Setting` (`src/lib/query.ts:5-14`). -/
structure Project where
  projId : String
  name : String
  website : List Website
  setting : Option Setting
deriving DecidableEq, Repr

/-- JS `project.Setting?.status`. -/
def Project.settingStatus (p : Project) : Option Bool :=
  p.setting.bind (fun s => s.status)

/-- JS `project.Setting?.interval`. -/
def Project.settingInterval (p : Project) : Option Nat :=
  p.setting.bind (fun s => s.interval)

/-- JS `project.Setting?.notifyType`. -/
def Project.settingNotifyType (p : Project) : Option String :=
  p.setting.bind (fun s => s.notifyType)

/-- A flattened monitor target group, the element shape produced by
`checkWebsites` (`src/index.ts:69-79`). -/
structure MonitorProject where
  projectId : String
  projectName : String
  interval : Option Nat
  notifyType : Option String
  status : Option Bool
  websites : List Website
deriving DecidableEq, Repr

/-- `src/index.ts:65`: `websites.filter((website) => website.Website.length > 0)`. -/
def projectsWithWebsites (projects : List Project) : List Project :=
  projects.filter (fun p => decide (p.website.length > 0))

/-- `src/index.ts:68`: `.filter((project) => project.Setting?.status !== false)`.
Note JS `undefined !== false` is `true`, so a project with no `Setting`
row or no `status` column passes this filter. -/
def eligibleProjects (projects : List Project) : List Project :=
  (projectsWithWebsites projects).filter (fun p => !(p.settingStatus == some false))

/-- `checkWebsites` (`src/index.ts:64-81`): the eligibility filter chain and
the flattening map producing `websitesToMonitor`. -/
def websitesToMonitor (projects : List Project) : List MonitorProject :=
  (eligibleProjects projects).map (fun p =>
    { projectId := p.projId
      projectName := p.name
      interval := p.settingInterval
      notifyType := p.settingNotifyType
      status := p.settingStatus
      websites := p.website.map (fun w => { websiteId := w.websiteId, url := w.url }) })

/-! ### Cron cadences and the job scheduler (`setupMonitoringJobs`) -/

/-- The shapes of cron expression built by `setupMonitoringJobs`
(`src/index.ts:96-117`).  `everyNSeconds n` renders as the string
`*/n * * * * *`; `everyMinuteAtSecond0` as `0 * * * * *`; `everyNMinutes step`
as `0 */step * * * *` where `step = none` stands for the rendered `NaN`
produced by `Math.floor(undefined / 60)`. -/
inductive CronExpr where
  | everyNSeconds (n : Nat)
  | everyMinuteAtSecond0
  | everyNMinutes (step : Option Nat)
deriving DecidableEq, Repr

/-- The `switch (project.interval)` of `src/index.ts:98-117`.  A JS `switch`
compares the scrutinee against each `case` label in turn, so it is embedded as
a chain of equality tests; an `undefined` interval matches no preset and
reaches the default branch, where `Math.floor(undefined / 60)` is `NaN`. -/
def mkCronExpression (interval : Option Nat) : CronExpr :=
  match interval with
  | none => CronExpr.everyNMinutes none
  | some n =>
    if n = 30 then CronExpr.everyNSeconds 30
    else if n = 60 then CronExpr.everyMinuteAtSecond0
    else if n = 300 then CronExpr.everyNMinutes (some 5)
    else if n = 600 then CronExpr.everyNMinutes (some 10)
    else if n = 900 then CronExpr.everyNMinutes (some 15)
    else CronExpr.everyNMinutes (some (n / 60))

/-- Modelled from the spec: the cron collaborator (the `cron` npm package,
external to the repository) accepts a cadence only when its step field is a
number of at least 1; a `*/0` or `*/NaN` step is a malformed schedule and the
`CronJob` constructor throws — the spec's "scheduling errors (malformed
interval)" taxonomy (spec §7) and its "a generic every-N-minutes fallback"
clause (spec §4.2). -/
def CronExpr.valid : CronExpr → Bool
  | CronExpr.everyNSeconds n => decide (1 ≤ n)
  | CronExpr.everyMinuteAtSecond0 => true
  | CronExpr.everyNMinutes (some m) => decide (1 ≤ m)
  | CronExpr.everyNMinutes none => false

/-- The job-key identity `websiteId-url-interval` of `src/index.ts:89`,
kept structured rather than string-concatenated. -/
structure JobKey where
  websiteId : String
  url : String
  interval : Option Nat
deriving DecidableEq, Repr

/-- The live task table `activeJobs`: a map from job key to the cadence of its
running `CronJob`, embedded as an association list. -/
abbrev JobTable := List (JobKey × CronExpr)

/-- `activeJobs.has(jobKey)`. -/
def containsKey (t : JobTable) (k : JobKey) : Bool :=
  t.any (fun kv => kv.1 == k)

/-- Well-formedness of the task table: one entry per key (a JS `Map`). -/
def JobTable.WF (t : JobTable) : Prop :=
  (t.map Prod.fst).Nodup

/-- `newJobKeys` (`src/index.ts:85-90`): every flattened (website, url,
interval) identity of the desired snapshot. -/
def flattenTargets (targets : List MonitorProject) : List JobKey :=
  targets.flatMap (fun p =>
    p.websites.map (fun w => { websiteId := w.websiteId, url := w.url, interval := p.interval }))

/-- The creation phase of `setupMonitoringJobs` (`src/index.ts:87-127`):
walk the flattened keys in order; skip keys already live; otherwise build the
cron expression and start a job.  An invalid expression makes the `CronJob`
constructor throw, which aborts both `forEach` loops, so the walk stops there:
the boolean result records whether the walk ended in that exception. -/
def scheduleKeys : List JobKey → JobTable → JobTable × Bool
  | [], t => (t, false)
  | k :: ks, t =>
    if containsKey t k then
      scheduleKeys ks t
    else
      let expr := mkCronExpression k.interval
      if expr.valid then
        scheduleKeys ks (t ++ [(k, expr)])
      else
        (t, true)

/-- `setupMonitoringJobs` (`src/index.ts:84-138`): creation phase then, only
when no exception was thrown, the removal phase `src/index.ts:129-135` that
stops and deletes every live job whose key is not in `newJobKeys`. -/
def setupMonitoringJobs (targets : List MonitorProject) (active : JobTable) :
    JobTable × Bool :=
  let keys := flattenTargets targets
  match scheduleKeys keys active with
  | (t, true) => (t, true)
  | (t, false) => (t.filter (fun kv => keys.contains kv.1), false)

/-! ### Probe outcomes and the per-task tick (`monitorWebsite`) -/

/-- The axios error codes distinguished by `src/index.ts:238-240`. -/
inductive TransportError where
  | econnaborted
  | enotfound
  | econnrefused
  | otherNetwork
deriving DecidableEq, Repr

/-- The `errorType` classification ladder of `src/index.ts:238-240`. -/
def classifyTransportError : TransportError → String
  | TransportError.econnaborted => "timeout"
  | TransportError.enotfound => "dns_error"
  | TransportError.econnrefused => "connection_refused"
  | TransportError.otherNetwork => "network_error"

/-- Outcome of the `axios.get` probe (`src/index.ts:162-165`): either the
request completed with some HTTP status (any status, because
`validateStatus: () => true`), carrying the measured wall-clock latency,
response headers and the JS-truthiness-guarded body size
`response.data ? JSON.stringify(response.data).length : null`; or it threw a
transport error, which lands in the `catch` block. -/
inductive ProbeOutcome where
  | completed (statusCode : Nat) (responseTime : Nat)
      (headers : List (String × String)) (contentSize : Option Nat)
  | transportError (code : TransportError) (message : String)
deriving DecidableEq, Repr

/-- `src/index.ts:168`: `response.status >= 200 && response.status < 300`.
Whether an outcome counts as a failure for the alert logic. -/
def ProbeOutcome.isFailure : ProbeOutcome → Bool
  | ProbeOutcome.completed s _ _ _ => !(decide (200 ≤ s) && decide (s < 300))
  | ProbeOutcome.transportError _ _ => true

/-- The `checkData` record persisted through `checkWebsite` →
`prisma.check.create` (`src/index.ts:170-178`, `src/lib/query.ts:26-34`). -/
structure CheckData where
  status : Bool
  responseTime : Option Nat
  statusCode : Option Nat
  headers : Option (List (String × String))
  contentSize : Option Nat
  errorMessage : Option String
  errorType : Option String
deriving DecidableEq, Repr

/-- The `performanceData` record of `src/index.ts:182-186`. -/
structure PerfData where
  responseTime : Nat
  statusCode : Nat
  contentSize : Option Nat
deriving DecidableEq, Repr

/-- The persistence/notification side effects a tick can issue, in program
order.  `appendCheck` is `checkWebsite(...)` (a `prisma.check.create`),
`appendPerformance` is `createPerformanceMetric(...)`, `updateProjectStatus`
is `updateProject(projectId, { status })`, `resolveOpenAlerts` is
`prisma.alert.updateMany({ websiteId, resolvedAt: null } → { resolvedAt: now })`,
`createAlert` is `alertWebsite(...)` and `dispatchEmail` is
`sendAlertEmail(...)` (the resend call). -/
inductive Effect where
  | appendCheck (websiteId : String) (data : CheckData)
  | appendPerformance (websiteId : String) (data : PerfData)
  | updateProjectStatus (projectId : String) (status : String)
  | resolveOpenAlerts (websiteId : String)
  | createAlert (websiteId : String) (message : String)
  | dispatchEmail (websiteId : String)
deriving DecidableEq, Repr

/-- Effect classifiers used to state frame properties. -/
def Effect.isCheckAppend : Effect → Bool
  | Effect.appendCheck _ _ => true
  | _ => false

def Effect.isPerfAppend : Effect → Bool
  | Effect.appendPerformance _ _ => true
  | _ => false

def Effect.isProjectUpdate : Effect → Bool
  | Effect.updateProjectStatus _ _ => true
  | _ => false

def Effect.isAlertMutation : Effect → Bool
  | Effect.resolveOpenAlerts _ => true
  | Effect.createAlert _ _ => true
  | _ => false

def Effect.isAlertCreate : Effect → Bool
  | Effect.createAlert _ _ => true
  | _ => false

def Effect.isEmailDispatch : Effect → Bool
  | Effect.dispatchEmail _ => true
  | _ => false

/-- The environment of one `monitorWebsite(website, project)` invocation:
the target's identity plus what the guard queries and the open-alert query
return on this tick.  `websiteStillExists` is the
`prisma.website.findUnique` guard (`src/index.ts:142-149`, re-queried at
`src/index.ts:229-236` in the catch path with the same result inside one
tick), `settingStatus` the `prisma.setting.findUnique(...)?.status` guard
(`src/index.ts:151-158`), and `hasOpenAlert` the
`prisma.alert.findFirst({ websiteId, resolvedAt: null })` lookup. -/
structure TickCtx where
  websiteId : String
  url : String
  projectId : String
  websiteStillExists : Bool
  settingStatus : Option Bool
  hasOpenAlert : Bool
deriving DecidableEq, Repr

/-- `monitorWebsite` (`src/index.ts:140-268`) as the list of effects the tick
issues, in program order.  The `try` body runs the guards, probes, persists
the check and performance rows and drives the alert logic; a transport error
jumps to the `catch` block, which re-checks existence, persists only a check
row, and drives the alert logic. -/
def monitorWebsite (c : TickCtx) (outcome : ProbeOutcome) : List Effect :=
  if !c.websiteStillExists then
    []
  else if c.settingStatus == some false then
    []
  else
    match outcome with
    | ProbeOutcome.completed status rt headers csize =>
      let isHealthy := decide (200 ≤ status) && decide (status < 300)
      let checkData : CheckData :=
        { status := isHealthy
          responseTime := some rt
          statusCode := some status
          headers := some headers
          contentSize := csize
          errorMessage := if isHealthy then none else some ("HTTP " ++ toString status)
          errorType := if isHealthy then none else some "http_error" }
      [Effect.appendCheck c.websiteId checkData,
       Effect.appendPerformance c.websiteId
         { responseTime := rt, statusCode := status, contentSize := csize }] ++
      (if isHealthy then
        [Effect.updateProjectStatus c.projectId "online",
         Effect.resolveOpenAlerts c.websiteId]
      else if c.hasOpenAlert then
        []
      else
        [Effect.createAlert c.websiteId ("Website " ++ c.url ++ " is down"),
         Effect.dispatchEmail c.websiteId])
    | ProbeOutcome.transportError code msg =>
      if !c.websiteStillExists then
        []
      else
        [Effect.appendCheck c.websiteId
          { status := false
            responseTime := none
            statusCode := none
            headers := none
            contentSize := none
            errorMessage := some msg
            errorType := some (classifyTransportError code) }] ++
        (if c.hasOpenAlert then
          []
        else
          [Effect.createAlert c.websiteId ("Website " ++ c.url ++ " is unreachable"),
           Effect.dispatchEmail c.websiteId])

/-! ### Alert records and tick semantics on the alert store -/

/-- One row of the `Alert` relation.  A row is "open" while `resolvedAt` is
`none`. -/
structure AlertRec where
  websiteId : String
  message : String
  raisedAt : Nat
  resolvedAt : Option Nat
deriving DecidableEq, Repr

/-- The open-alert predicate `{ websiteId, resolvedAt: null }`. -/
def AlertRec.isOpenFor (wid : String) (a : AlertRec) : Bool :=
  a.websiteId == wid && a.resolvedAt == none

/-- `prisma.alert.findFirst({ websiteId, resolvedAt: null }) !== null`. -/
def hasOpenAlertFor (wid : String) (db : List AlertRec) : Bool :=
  db.any (AlertRec.isOpenFor wid)

/-- Number of open alerts a website has. -/
def openAlertCount (wid : String) (db : List AlertRec) : Nat :=
  (db.filter (AlertRec.isOpenFor wid)).length

/-- Semantics of one effect on the alert store.  `resolveOpenAlerts` is
`prisma.alert.updateMany` setting `resolvedAt := now` on every matching open
row (`src/index.ts:195-203`).  `createAlert` appends one open row; modelled
from the spec for the truncated `alertWebsite` helper of `src/lib/query.ts`:
`createAlert(websiteId, message)` appends a single open AlertRecord
(spec §6, §3 AlertRecord).  The remaining effects touch other stores. -/
def applyEffect (now : Nat) (db : List AlertRec) : Effect → List AlertRec
  | Effect.resolveOpenAlerts wid =>
    db.map (fun a => if a.isOpenFor wid then { a with resolvedAt := some now } else a)
  | Effect.createAlert wid msg =>
    db ++ [{ websiteId := wid, message := msg, raisedAt := now, resolvedAt := none }]
  | Effect.appendCheck _ _ => db
  | Effect.appendPerformance _ _ => db
  | Effect.updateProjectStatus _ _ => db
  | Effect.dispatchEmail _ => db

def applyEffects (now : Nat) (db : List AlertRec) (effs : List Effect) : List AlertRec :=
  effs.foldl (applyEffect now) db

/-- A monitored target's identity as passed to `monitorWebsite`. -/
structure TargetRef where
  websiteId : String
  url : String
  projectId : String
deriving DecidableEq, Repr

/-- The varying inputs of one tick: guard query results, probe outcome and
the wall clock. -/
structure TickInput where
  websiteStillExists : Bool
  settingStatus : Option Bool
  outcome : ProbeOutcome
  now : Nat
deriving DecidableEq, Repr

/-- The context a tick runs in, with `hasOpenAlert` consulted fresh from the
alert store (spec §4.4: the open-alert query is re-run on every tick). -/
def tickCtx (t : TargetRef) (db : List AlertRec) (inp : TickInput) : TickCtx :=
  { websiteId := t.websiteId
    url := t.url
    projectId := t.projectId
    websiteStillExists := inp.websiteStillExists
    settingStatus := inp.settingStatus
    hasOpenAlert := hasOpenAlertFor t.websiteId db }

/-- One tick's transition of the alert store. -/
def runTick (t : TargetRef) (db : List AlertRec) (inp : TickInput) : List AlertRec :=
  applyEffects inp.now db (monitorWebsite (tickCtx t db inp) inp.outcome)

/-- A whole sequence of ticks, possibly interleaving several monitored
targets (each scheduled task fires independently). -/
def runSystem (db : List AlertRec) (steps : List (TargetRef × TickInput)) : List AlertRec :=
  steps.foldl (fun acc st => runTick st.1 acc st.2) db

/-! ### Uptime aggregation (`calculateUptime`) -/

/-- One row of the `Check` relation as read back by
`prisma.check.findMany` in `calculateUptime` (`src/index.ts:294-302`); only
the fields the aggregation touches are listed. -/
structure CheckRow where
  websiteId : String
  status : Bool
  responseTime : Option Nat
  checkedAt : Nat
deriving DecidableEq, Repr

/-- One row of the `PerformanceMetric` relation (content irrelevant to the
aggregation, which only deletes them). -/
structure PerfRow where
  websiteId : String
  responseTime : Option Nat
deriving DecidableEq, Repr

/-- One row of the uptime-log relation written by `createUptimeLog`
(`src/index.ts:312-319`). -/
structure UptimeLog where
  websiteId : String
  date : Nat
  uptime : ℚ
  downtime : ℚ
  checks : Nat
  failures : Nat
  avgResponseTime : ℚ
deriving DecidableEq, Repr

/-- The persistence state the aggregation job touches. -/
structure AggDB where
  checks : List CheckRow
  perf : List PerfRow
  uptimeLogs : List UptimeLog
deriving DecidableEq, Repr

/-- The window query of `src/index.ts:294-302`:
`{ websiteId, checkedAt: { gte: windowStart, lt: now } }`. -/
def checksInWindow (wid : String) (windowStart now : Nat) (rows : List CheckRow) :
    List CheckRow :=
  rows.filter (fun c =>
    c.websiteId == wid && decide (windowStart ≤ c.checkedAt) && decide (c.checkedAt < now))

/-- `src/index.ts:310`:
`checks.reduce((sum, check) => sum + (check.responseTime || 0), 0) / totalChecks`.
A `null` (or zero) latency contributes `0` to the sum; the divisor is the
total number of checks in the window. -/
def avgResponseTimeOf (checks : List CheckRow) : ℚ :=
  (checks.foldl (fun sum c => sum + ((c.responseTime.getD 0 : Nat) : ℚ)) 0) /
    (checks.length : ℚ)

/-- The spec's wording for the same quantity (spec §4.5 item 3): "average
latency = mean of non-null latencies" — checks with a null latency excluded
from both the sum and the divisor.  Stated for comparison with
`avgResponseTimeOf`, which is what the code computes. -/
def specMeanNonNullLatency (checks : List CheckRow) : ℚ :=
  let latencies := checks.filterMap (fun c => c.responseTime)
  ((latencies.sum : Nat) : ℚ) / (latencies.length : ℚ)

/-- The per-website body of the aggregation loop (`src/index.ts:294-322`):
read the window's checks and, when non-empty, append one uptime log computed
from them. -/
def summarizeWebsite (wid : String) (windowStart now : Nat) (db : AggDB) : AggDB :=
  let cs := checksInWindow wid windowStart now db.checks
  if 0 < cs.length then
    let total := cs.length
    let successful := (cs.filter (fun c => c.status)).length
    let failed := total - successful
    let uptime : ℚ := ((successful : ℚ) / (total : ℚ)) * 100
    { db with
        uptimeLogs := db.uptimeLogs ++
          [{ websiteId := wid
             date := windowStart
             uptime := uptime
             downtime := 100 - uptime
             checks := total
             failures := failed
             avgResponseTime := avgResponseTimeOf cs }] }
  else
    db

/-- `calculateUptime` (`src/index.ts:270-328`) in source order: read the
project list, then `prisma.check.deleteMany({})` (every check row, no
filter), then `prisma.performanceMetric.deleteMany({})`, and only then the
nested per-project/per-website summarization loop reading from the (now
emptied) check table.  `createUptimeLog` is truncated from
`src/lib/query.ts`; modelled from the spec as appending one UptimeSummary
row (spec §6 `appendUptimeSummary`). -/
def calculateUptime (projects : List Project) (windowStart now : Nat) (db : AggDB) :
    AggDB :=
  let afterDeletes : AggDB := { db with checks := [], perf := [] }
  projects.foldl
    (fun acc p =>
      p.website.foldl (fun acc2 w => summarizeWebsite w.websiteId windowStart now acc2) acc)
    afterDeletes

/-! ### Concrete sample inputs used by witnesses and counterexamples -/

def sampleWebsite : Website := { websiteId := "w1", url := "https://example.com" }

/-- A project with one website and no `Setting` row at all. -/
def sampleProject : Project :=
  { projId := "p1", name := "Demo", website := [sampleWebsite], setting := none }

def sampleSetting : Setting :=
  { status := some true, interval := some 60, notifyType := some "email" }

def sampleProject60 : Project :=
  { projId := "p2", name := "Demo2", website := [sampleWebsite], setting := some sampleSetting }

def sampleKey60 : JobKey :=
  { websiteId := "w1", url := "https://example.com", interval := some 60 }

/-- A desired target whose 45-second interval matches no preset: the fallback
cadence is `Math.floor(45 / 60) = 0` minutes. -/
def badTarget : MonitorProject :=
  { projectId := "p3", projectName := "Bad", interval := some 45, notifyType := none,
    status := some true, websites := [{ websiteId := "w3", url := "https://bad.example" }] }

def goodTarget : MonitorProject :=
  { projectId := "p4", projectName := "Good", interval := some 60, notifyType := none,
    status := some true, websites := [{ websiteId := "w4", url := "https://good.example" }] }

def goodKey : JobKey :=
  { websiteId := "w4", url := "https://good.example", interval := some 60 }

/-- A live task whose identity is absent from the desired snapshot. -/
def staleKey : JobKey :=
  { websiteId := "w9", url := "https://old.example", interval := some 60 }

def staleTable : JobTable := [(staleKey, CronExpr.everyMinuteAtSecond0)]

/-- A tick context whose guard queries pass and with no open alert. -/
def tickOkCtx : TickCtx :=
  { websiteId := "w1", url := "https://example.com", projectId := "p1",
    websiteStillExists := true, settingStatus := some true, hasOpenAlert := false }

def okOutcome : ProbeOutcome :=
  ProbeOutcome.completed 200 123 [("server", "nginx")] (some 512)

def timeoutOutcome : ProbeOutcome :=
  ProbeOutcome.transportError TransportError.econnaborted "timeout of 10000ms exceeded"

def sampleTarget : TargetRef :=
  { websiteId := "w1", url := "https://example.com", projectId := "p1" }

def openAlert : AlertRec :=
  { websiteId := "w1", message := "Website https://example.com is down",
    raisedAt := 5, resolvedAt := none }

def openDb : List AlertRec := [openAlert]

def failInp : TickInput :=
  { websiteStillExists := true, settingStatus := some true, outcome := timeoutOutcome, now := 8 }

def okInp : TickInput :=
  { websiteStillExists := true, settingStatus := some true, outcome := okOutcome, now := 10 }

/-- Down, down again, then recovery — all ticks of one target. -/
def sampleSteps : List (TargetRef × TickInput) :=
  [(sampleTarget, failInp), (sampleTarget, failInp), (sampleTarget, okInp)]

/-- Two checks in a window, one with a `null` latency. -/
def cexChecks : List CheckRow :=
  [{ websiteId := "w1", status := true, responseTime := some 100, checkedAt := 3 },
   { websiteId := "w1", status := false, responseTime := none, checkedAt := 4 }]

/-! ## Helper lemmas -/

theorem summarizeWebsite_checks (wid : String) (windowStart now : Nat) (db : AggDB) :
    (summarizeWebsite wid windowStart now db).checks = db.checks := by
  simp only [summarizeWebsite]
  split <;> rfl

theorem summarizeWebsite_of_no_checks (wid : String) (windowStart now : Nat)
    (db : AggDB) (h : db.checks = []) :
    summarizeWebsite wid windowStart now db = db := by
  unfold summarizeWebsite
  rw [h]
  rfl

theorem websiteFold_of_no_checks (ws : List Website) (windowStart now : Nat)
    (db : AggDB) (h : db.checks = []) :
    ws.foldl (fun acc w => summarizeWebsite w.websiteId windowStart now acc) db = db := by
  induction ws with
  | nil => rfl
  | cons w ws ih =>
    simp only [List.foldl_cons]
    rw [summarizeWebsite_of_no_checks _ _ _ _ h]
    exact ih

theorem projectFold_of_no_checks (ps : List Project) (windowStart now : Nat)
    (db : AggDB) (h : db.checks = []) :
    ps.foldl
      (fun acc p =>
        p.website.foldl (fun acc2 w => summarizeWebsite w.websiteId windowStart now acc2) acc)
      db = db := by
  induction ps with
  | nil => rfl
  | cons p ps ih =>
    simp only [List.foldl_cons]
    rw [websiteFold_of_no_checks _ _ _ _ h]
    exact ih

theorem containsKey_append (t : JobTable) (kv : JobKey × CronExpr) (k : JobKey) :
    containsKey (t ++ [kv]) k = (containsKey t k || (kv.1 == k)) := by
  simp [containsKey, List.any_append]

theorem containsKey_iff_mem (t : JobTable) (k : JobKey) :
    containsKey t k = true ↔ k ∈ t.map Prod.fst := by
  simp only [containsKey, List.any_eq_true, beq_iff_eq, List.mem_map]

theorem scheduleKeys_ok_contains (ks : List JobKey) (t t' : JobTable)
    (h : scheduleKeys ks t = (t', false)) (k : JobKey) :
    containsKey t' k = (containsKey t k || ks.contains k) := by
  induction ks generalizing t with
  | nil =>
    simp only [scheduleKeys] at h
    cases h
    simp
  | cons k0 ks ih =>
    rw [scheduleKeys] at h
    by_cases hc : containsKey t k0 = true
    · rw [if_pos hc] at h
      rw [ih t h]
      by_cases hk : k = k0
      · subst hk
        simp [hc]
      · simp [List.contains_cons, hk]
    · rw [if_neg hc] at h
      simp only [] at h
      by_cases hv : (mkCronExpression k0.interval).valid = true
      · rw [if_pos hv] at h
        rw [ih _ h, containsKey_append]
        by_cases hk : k = k0
        · subst hk
          simp
        · have : (k0 == k) = false := by
            simp [Ne.symm hk]
          simp [List.contains_cons, hk, this, Bool.or_assoc]
      · rw [if_neg hv] at h
        cases h

theorem containsKey_filter_keys (t : JobTable) (keys : List JobKey) (k : JobKey) :
    containsKey (t.filter (fun kv => keys.contains kv.1)) k
      = (containsKey t k && keys.contains k) := by
  induction t with
  | nil => simp [containsKey]
  | cons kv t ih =>
    simp only [List.filter_cons]
    by_cases hp : keys.contains kv.1 = true
    · rw [if_pos (by simpa using hp)]
      simp only [containsKey, List.any_cons] at ih ⊢
      rw [ih]
      by_cases hk : kv.1 = k
      · subst hk
        simp only [beq_self_eq_true, Bool.true_or, Bool.true_and, hp]
      · have hbe : (kv.1 == k) = false := by simp [hk]
        simp [hbe]
    · rw [if_neg (by simpa using hp)]
      simp only [containsKey, List.any_cons] at ih ⊢
      rw [ih]
      by_cases hk : kv.1 = k
      · subst hk
        have hp' : keys.contains kv.1 = false := by simpa using hp
        simp only [hp', Bool.and_false]
      · have hbe : (kv.1 == k) = false := by simp [hk]
        simp [hbe]

theorem scheduleKeys_WF (ks : List JobKey) (t t' : JobTable) (e : Bool)
    (h : scheduleKeys ks t = (t', e)) (hwf : t.WF) : t'.WF := by
  induction ks generalizing t with
  | nil =>
    simp only [scheduleKeys] at h
    cases h
    exact hwf
  | cons k0 ks ih =>
    rw [scheduleKeys] at h
    by_cases hc : containsKey t k0 = true
    · rw [if_pos hc] at h
      exact ih t h hwf
    · rw [if_neg hc] at h
      simp only [] at h
      by_cases hv : (mkCronExpression k0.interval).valid = true
      · rw [if_pos hv] at h
        refine ih _ h ?_
        unfold JobTable.WF at hwf ⊢
        rw [List.map_append]
        simp only [List.nodup_append, List.map_cons, List.map_nil, List.nodup_cons,
          List.nodup_nil, List.not_mem_nil, not_false_iff, and_true, true_and]
        refine ⟨hwf, ?_⟩
        intro a ha hmem
        rcases List.mem_singleton.mp hmem with rfl
        exact hc ((containsKey_iff_mem t a).mpr ha)
      · rw [if_neg hv] at h
        cases h
        exact hwf

theorem wf_filter (t : JobTable) (p : JobKey × CronExpr → Bool) (hwf : JobTable.WF t) :
    JobTable.WF (t.filter p) := by
  unfold JobTable.WF at hwf ⊢
  exact List.Nodup.sublist (List.Sublist.map _ (List.filter_sublist t)) hwf

theorem scheduleKeys_extends (ks : List JobKey) (t t' : JobTable) (e : Bool)
    (h : scheduleKeys ks t = (t', e)) : ∃ added, t' = t ++ added := by
  induction ks generalizing t with
  | nil =>
    simp only [scheduleKeys] at h
    cases h
    exact ⟨[], by simp⟩
  | cons k0 ks ih =>
    rw [scheduleKeys] at h
    by_cases hc : containsKey t k0 = true
    · rw [if_pos hc] at h
      exact ih t h
    · rw [if_neg hc] at h
      simp only [] at h
      by_cases hv : (mkCronExpression k0.interval).valid = true
      · rw [if_pos hv] at h
        rcases ih _ h with ⟨rest, hrest⟩
        exact ⟨(k0, mkCronExpression k0.interval) :: rest, by
          rw [hrest, List.append_assoc]
          rfl⟩
      · rw [if_neg hv] at h
        cases h
        exact ⟨[], by simp⟩

/-! ## Claim C1 -/

/-- Claim C1 is violated by the code (code bug): `calculateUptime` runs
`prisma.check.deleteMany({})` and `prisma.performanceMetric.deleteMany({})`
*before* the summarization loop, so the loop reads from an already-emptied
check table: for every input state the job deletes all raw rows and writes
no uptime summary at all.  The claimed order read → summarize → write
summary → delete raw rows is the reverse of what the code does. -/
theorem calculateUptime_deletes_before_summarizing
    (projects : List Project) (windowStart now : Nat) (db : AggDB) :
    (calculateUptime projects windowStart now db).uptimeLogs = db.uptimeLogs ∧
    (calculateUptime projects windowStart now db).checks = [] ∧
    (calculateUptime projects windowStart now db).perf = [] := by
  unfold calculateUptime
  rw [projectFold_of_no_checks _ _ _ _ rfl]
  exact ⟨rfl, rfl, rfl⟩

/-! ## Claim C4 -/

/-- Claim C4: when one reconciliation completes (the creation walk throws no
scheduling exception), the live task table holds exactly the eligible target
identities flattened from the desired snapshot `D`: membership in the table
coincides with membership in the flattened eligible key set, and the table
stays duplicate-free, so each eligible identity has exactly one task and
every identity outside the set has been stopped and removed. -/
theorem reconcile_converges_to_desired (D : List Project) (active t' : JobTable)
    (hwf : JobTable.WF active)
    (h : setupMonitoringJobs (websitesToMonitor D) active = (t', false)) :
    (∀ k : JobKey,
      containsKey t' k = (flattenTargets (websitesToMonitor D)).contains k) ∧
    JobTable.WF t' := by
  unfold setupMonitoringJobs at h
  dsimp only at h
  rcases hsk : scheduleKeys (flattenTargets (websitesToMonitor D)) active with ⟨t1, e⟩
  rw [hsk] at h
  cases e
  · simp only [] at h
    cases h
    constructor
    · intro k
      rw [containsKey_filter_keys, scheduleKeys_ok_contains _ _ _ hsk]
      cases hck : (flattenTargets (websitesToMonitor D)).contains k <;>
        simp [hck]
    · exact wf_filter _ _ (scheduleKeys_WF _ _ _ _ hsk hwf)
  · simp at h

theorem reconcile_converges_to_desired_witness :
    JobTable.WF ([] : JobTable) ∧
    ((∀ k : JobKey,
        containsKey [(sampleKey60, CronExpr.everyMinuteAtSecond0)] k
          = (flattenTargets (websitesToMonitor [sampleProject60])).contains k) ∧
      JobTable.WF [(sampleKey60, CronExpr.everyMinuteAtSecond0)]) :=
  ⟨List.nodup_nil,
   reconcile_converges_to_desired [sampleProject60] []
     [(sampleKey60, CronExpr.everyMinuteAtSecond0)] List.nodup_nil (by decide)⟩

/-! ## Claim C6 -/

/-- Claim C6 counterexample: with one stale live task and a desired snapshot
whose first target has the unschedulable interval 45 s and whose second
target is fine (60 s), the reconciliation run aborts on the first target's
constructor exception: the second target is never scheduled and the stale
task is not removed — refuting "the reconciliation of all remaining targets
still completes". -/
theorem failed_schedule_aborts_reconciliation_cex :
    setupMonitoringJobs [badTarget, goodTarget] staleTable = (staleTable, true) ∧
    containsKey (setupMonitoringJobs [badTarget, goodTarget] staleTable).1 goodKey
      = false ∧
    containsKey (setupMonitoringJobs [badTarget, goodTarget] staleTable).1 staleKey
      = true := by
  refine ⟨by decide, by decide, by decide⟩

/-- Claim C6 amended: a target that fails to schedule throws out of the
reconciliation loop, aborting it at that point: the run ends in the error
state, the stale-task removal phase never runs, and the task table is left
as the previous table extended by whatever targets were scheduled before the
failure — in particular every previously live task (stale or not) is still
present. -/
theorem failed_schedule_keeps_existing_tasks (targets : List MonitorProject)
    (active t' : JobTable) (h : setupMonitoringJobs targets active = (t', true)) :
    (∃ added : JobTable, t' = active ++ added) ∧
    (∀ k : JobKey, containsKey active k = true → containsKey t' k = true) := by
  have hext : ∃ added, t' = active ++ added := by
    unfold setupMonitoringJobs at h
    dsimp only at h
    rcases hsk : scheduleKeys (flattenTargets targets) active with ⟨t1, e⟩
    rw [hsk] at h
    cases e
    · simp at h
    · simp only [] at h
      cases h
      exact scheduleKeys_extends _ _ _ _ hsk
  refine ⟨hext, ?_⟩
  rcases hext with ⟨added, rfl⟩
  intro k hk
  simp only [containsKey, List.any_append] at hk ⊢
  rw [hk]
  rfl

theorem failed_schedule_keeps_existing_tasks_witness :
    (∃ added : JobTable, staleTable = staleTable ++ added) ∧
    (∀ k : JobKey, containsKey staleTable k = true →
        containsKey staleTable k = true) :=
  failed_schedule_keeps_existing_tasks [badTarget, goodTarget] staleTable staleTable
    (by decide)

/-! ## Claim C8 -/

/-- Claim C8: a project with at least one website and no explicit
enabled/disabled setting passes the `checkWebsites` eligibility filter
(`Setting?.status !== false` is true for a missing setting), so its websites
are flattened into the monitored set; and the only way a project with
websites is suppressed is an explicit `status = false`. -/
theorem no_setting_defaults_to_eligible (projects : List Project) (p : Project)
    (hmem : p ∈ projects) (hws : 0 < p.website.length)
    (hnone : p.settingStatus = none) :
    (∃ mp ∈ websitesToMonitor projects,
        mp.projectId = p.projId ∧
        mp.websites = p.website.map (fun w => { websiteId := w.websiteId, url := w.url })) ∧
    (∀ q : Project, q ∈ projects → 0 < q.website.length →
        q ∉ eligibleProjects projects → q.settingStatus = some false) := by
  constructor
  · have hel : p ∈ eligibleProjects projects := by
      unfold eligibleProjects projectsWithWebsites
      rw [List.mem_filter, List.mem_filter]
      refine ⟨⟨hmem, by simpa using hws⟩, ?_⟩
      simp [hnone]
    refine ⟨_, List.mem_map_of_mem _ hel, rfl, rfl⟩
  · intro q hq hqws hnel
    by_contra hne
    apply hnel
    unfold eligibleProjects projectsWithWebsites
    rw [List.mem_filter, List.mem_filter]
    refine ⟨⟨hq, by simpa using hqws⟩, ?_⟩
    simpa using hne

theorem no_setting_defaults_to_eligible_witness :
    0 < sampleProject.website.length ∧
    (∃ mp ∈ websitesToMonitor [sampleProject],
        mp.projectId = sampleProject.projId ∧
        mp.websites = sampleProject.website.map
          (fun w => { websiteId := w.websiteId, url := w.url })) ∧
    (∀ q : Project, q ∈ [sampleProject] → 0 < q.website.length →
        q ∉ eligibleProjects [sampleProject] → q.settingStatus = some false) := by
  refine ⟨by decide, ?_⟩
  exact no_setting_defaults_to_eligible [sampleProject] sampleProject
    (by simp) (by decide) (by rfl)

/-! ## Claim C10 -/

/-- Claim C10: an interval that matches no preset `case` and is missing or
below 60 seconds reaches the default branch, whose fallback
`Math.floor(interval / 60)` is `0` (or `NaN` when the interval is missing),
yielding the cron expression `0 */0 * * * *` (resp. `0 */NaN * * * *`); that
expression is not a valid schedule, so creating the task for such a target
fails (the walk ends in the constructor exception) instead of scheduling a
periodic task. -/
theorem invalid_interval_fails_to_schedule (i : Option Nat)
    (h : i = none ∨ ∃ n, i = some n ∧ n < 60 ∧ n ≠ 30) :
    (mkCronExpression i = CronExpr.everyNMinutes none ∨
      mkCronExpression i = CronExpr.everyNMinutes (some 0)) ∧
    (mkCronExpression i).valid = false ∧
    (∀ (t : JobTable) (k : JobKey), k.interval = i → containsKey t k = false →
      scheduleKeys [k] t = (t, true)) := by
  have hexpr : mkCronExpression i = CronExpr.everyNMinutes none ∨
      mkCronExpression i = CronExpr.everyNMinutes (some 0) := by
    rcases h with rfl | ⟨n, rfl, hlt, h30⟩
    · exact Or.inl rfl
    · right
      have h60 : n ≠ 60 := by omega
      have h300 : n ≠ 300 := by omega
      have h600 : n ≠ 600 := by omega
      have h900 : n ≠ 900 := by omega
      have hdiv : n / 60 = 0 := Nat.div_eq_of_lt hlt
      simp [mkCronExpression, h30, h60, h300, h600, h900, hdiv]
  have hvalid : (mkCronExpression i).valid = false := by
    rcases hexpr with he | he <;> rw [he] <;> rfl
  refine ⟨hexpr, hvalid, ?_⟩
  intro t k hk hck
  unfold scheduleKeys
  rw [hck]
  simp only [Bool.false_eq_true, if_false, hk, hvalid]

theorem foldl_latency_sum (l : List CheckRow) (init : ℚ) :
    l.foldl (fun sum c => sum + ((c.responseTime.getD 0 : Nat) : ℚ)) init
      = init + (((l.filterMap (fun c => c.responseTime)).sum : Nat) : ℚ) := by
  induction l generalizing init with
  | nil => simp
  | cons c l ih =>
    rcases hc : c.responseTime with _ | v
    · simp only [List.foldl_cons, List.filterMap_cons, hc, Option.getD_none, Nat.cast_zero,
        add_zero]
      exact ih init
    · simp only [List.foldl_cons, List.filterMap_cons, hc, Option.getD_some, List.sum_cons]
      rw [ih]
      push_cast
      ring

/-! ## Claim C7 -/

/-- Claim C7 counterexample: a window holding one successful check of
latency 100 and one failed check of `null` latency.  The code's average
(`reduce` of `responseTime || 0` divided by `totalChecks`) is 50, while the
mean of the non-null latencies is 100: checks with a null latency are
excluded from the sum but *not* from the divisor, refuting the claim. -/
theorem avg_latency_null_in_divisor_cex :
    avgResponseTimeOf cexChecks = 50 ∧
    specMeanNonNullLatency cexChecks = 100 ∧
    avgResponseTimeOf cexChecks ≠ specMeanNonNullLatency cexChecks := by
  have h1 : avgResponseTimeOf cexChecks = 50 := by
    norm_num [avgResponseTimeOf, cexChecks, List.foldl_cons]
  have h2 : specMeanNonNullLatency cexChecks = 100 := by
    norm_num [specMeanNonNullLatency, cexChecks, List.filterMap_cons]
  refine ⟨h1, h2, ?_⟩
  rw [h1, h2]
  norm_num

/-- Claim C7 amended: the average latency written in the UptimeSummary
equals the sum of the non-null latencies of the window's checks divided by
the *total* number of checks in the window — null latencies contribute 0 to
the numerator but are still counted in the divisor. -/
theorem avg_latency_sum_over_total (checks : List CheckRow)
    (_h : 0 < checks.length) :
    avgResponseTimeOf checks =
      (((checks.filterMap (fun c => c.responseTime)).sum : Nat) : ℚ) /
        (checks.length : ℚ) := by
  unfold avgResponseTimeOf
  rw [foldl_latency_sum, zero_add]

theorem avg_latency_sum_over_total_witness :
    0 < cexChecks.length ∧
    avgResponseTimeOf cexChecks =
      (((cexChecks.filterMap (fun c => c.responseTime)).sum : Nat) : ℚ) /
        (cexChecks.length : ℚ) :=
  ⟨by decide, avg_latency_sum_over_total cexChecks (by decide)⟩

theorem invalid_interval_fails_to_schedule_witness :
    (mkCronExpression (some 45) = CronExpr.everyNMinutes none ∨
      mkCronExpression (some 45) = CronExpr.everyNMinutes (some 0)) ∧
    (mkCronExpression (some 45)).valid = false ∧
    (∀ (t : JobTable) (k : JobKey), k.interval = some 45 → containsKey t k = false →
      scheduleKeys [k] t = (t, true)) :=
  invalid_interval_fails_to_schedule (some 45)
    (Or.inr ⟨45, rfl, by decide, by decide⟩)

theorem openCount_map_resolve_self (now : Nat) (wid : String) (db : List AlertRec) :
    openAlertCount wid
      (db.map (fun a => if a.isOpenFor wid then { a with resolvedAt := some now } else a))
      = 0 := by
  unfold openAlertCount
  rw [List.length_eq_zero, List.filter_eq_nil_iff]
  intro a ha
  rcases List.mem_map.mp ha with ⟨b, _, rfl⟩
  by_cases hb : b.isOpenFor wid = true
  · obtain ⟨hwid, hres⟩ : b.websiteId = wid ∧ b.resolvedAt = none := by
      simpa [AlertRec.isOpenFor] using hb
    simp [AlertRec.isOpenFor, hwid, hres]
  · rw [if_neg hb]
    exact fun hc => hb hc

theorem openCount_map_resolve_other (now : Nat) (wid w' : String) (db : List AlertRec)
    (h : w' ≠ wid) :
    openAlertCount wid
      (db.map (fun a => if a.isOpenFor w' then { a with resolvedAt := some now } else a))
      = openAlertCount wid db := by
  unfold openAlertCount
  rw [List.filter_map, List.length_map]
  congr 1
  apply List.filter_congr
  intro a _
  simp only [Function.comp_apply]
  by_cases hb : a.isOpenFor w' = true
  · obtain ⟨hw, hres⟩ : a.websiteId = w' ∧ a.resolvedAt = none := by
      simpa [AlertRec.isOpenFor] using hb
    have hbe : (w' == wid) = false := by simp [h]
    simp [AlertRec.isOpenFor, hb, hw, hres, hbe]
  · rw [if_neg hb]

theorem openCount_append_create_self (now : Nat) (wid msg : String)
    (db : List AlertRec) :
    openAlertCount wid
      (db ++ [{ websiteId := wid, message := msg, raisedAt := now, resolvedAt := none }])
      = openAlertCount wid db + 1 := by
  unfold openAlertCount
  rw [List.filter_append, List.length_append]
  simp [AlertRec.isOpenFor]

theorem openCount_append_create_other (now : Nat) (wid w' msg : String)
    (db : List AlertRec) (h : w' ≠ wid) :
    openAlertCount wid
      (db ++ [{ websiteId := w', message := msg, raisedAt := now, resolvedAt := none }])
      = openAlertCount wid db := by
  unfold openAlertCount
  rw [List.filter_append, List.length_append]
  simp [AlertRec.isOpenFor, h]

theorem hasOpen_false_count (wid : String) (db : List AlertRec)
    (h : hasOpenAlertFor wid db = false) : openAlertCount wid db = 0 := by
  unfold hasOpenAlertFor at h
  unfold openAlertCount
  rw [List.length_eq_zero, List.filter_eq_nil_iff]
  intro a ha
  have := List.any_eq_false.mp h a ha
  simpa using this

/-! ## Claim C2 -/

/-- Claim C2 counterexample: a tick that passes its guard checks and whose
probe fails with a transport error (here a timeout) persists a CheckResult
but *no* performance sample — the `catch` block of `monitorWebsite` calls
`checkWebsite` but never `createPerformanceMetric`, refuting "both ... are
persisted, unconditionally". -/
theorem transport_tick_persists_no_performance_cex :
    ((monitorWebsite tickOkCtx timeoutOutcome).filter Effect.isCheckAppend).length
      = 1 ∧
    ((monitorWebsite tickOkCtx timeoutOutcome).filter Effect.isPerfAppend).length
      = 0 := by
  refine ⟨by decide, by decide⟩

/-- Claim C2 amended: every tick that passes its guard checks persists
exactly one CheckResult, unconditionally; a performance sample is persisted
exactly when the probe completed with an HTTP response (success or HTTP
error) and never when the probe failed with a transport error. -/
theorem tick_check_always_perf_iff_completed (c : TickCtx) (out : ProbeOutcome)
    (hex : c.websiteStillExists = true) (hst : c.settingStatus ≠ some false) :
    ((monitorWebsite c out).filter Effect.isCheckAppend).length = 1 ∧
    ((monitorWebsite c out).filter Effect.isPerfAppend).length =
      (match out with
        | ProbeOutcome.completed _ _ _ _ => 1
        | ProbeOutcome.transportError _ _ => 0) := by
  have hb : (c.settingStatus == some false) = false := by
    simpa using hst
  rcases out with ⟨s, rt, hd, cs⟩ | ⟨code, msg⟩ <;>
    simp only [monitorWebsite, hex, Bool.not_true, Bool.false_eq_true, if_false, hb] <;>
    split_ifs <;>
    simp [Effect.isCheckAppend, Effect.isPerfAppend]

theorem tick_check_always_perf_iff_completed_witness :
    tickOkCtx.websiteStillExists = true ∧
    ((monitorWebsite tickOkCtx okOutcome).filter Effect.isCheckAppend).length = 1 ∧
    ((monitorWebsite tickOkCtx okOutcome).filter Effect.isPerfAppend).length = 1 :=
  ⟨rfl,
   (tick_check_always_perf_iff_completed tickOkCtx okOutcome rfl (by decide)).1,
   (tick_check_always_perf_iff_completed tickOkCtx okOutcome rfl (by decide)).2⟩

/-! ## Claim C9 -/

/-- Claim C9 counterexample: a guard-passing tick whose probe succeeds
mutates a Project record — the success branch calls
`updateProject(project.projectId, { status: 'online' })` — refuting "no
other persisted record (in particular no Project record) is mutated by a
tick". -/
theorem healthy_tick_updates_project_cex :
    Effect.updateProjectStatus "p1" "online" ∈ monitorWebsite tickOkCtx okOutcome := by
  decide

/-- Claim C9 amended: the persistent side effects of a guard-passing tick
are: exactly one CheckResult; at most one performance record (exactly one
when the probe completed, none on a transport error); at most one alert
mutation; at most one notification dispatch; and — beyond the claim —
exactly one Project record mutation (its status set to "online") on every
successful probe.  Every effect of a tick is one of these five kinds. -/
theorem tick_effect_frame (c : TickCtx) (out : ProbeOutcome)
    (hex : c.websiteStillExists = true) (hst : c.settingStatus ≠ some false) :
    ((monitorWebsite c out).filter Effect.isCheckAppend).length = 1 ∧
    ((monitorWebsite c out).filter Effect.isPerfAppend).length ≤ 1 ∧
    ((monitorWebsite c out).filter Effect.isAlertMutation).length ≤ 1 ∧
    ((monitorWebsite c out).filter Effect.isEmailDispatch).length ≤ 1 ∧
    ((monitorWebsite c out).filter Effect.isProjectUpdate).length =
      (if out.isFailure then 0 else 1) ∧
    (∀ e ∈ monitorWebsite c out,
      (e.isCheckAppend || e.isPerfAppend || e.isAlertMutation ||
        e.isEmailDispatch || e.isProjectUpdate) = true) := by
  have hb : (c.settingStatus == some false) = false := by
    simpa using hst
  rcases out with ⟨s, rt, hd, cs⟩ | ⟨code, msg⟩
  · by_cases hh : 200 ≤ s ∧ s < 300
    · simp [monitorWebsite, ProbeOutcome.isFailure, hex, hb, hh, Effect.isCheckAppend,
        Effect.isPerfAppend, Effect.isAlertMutation, Effect.isEmailDispatch,
        Effect.isProjectUpdate]
    · have hf : s < 200 ∨ 300 ≤ s := by omega
      by_cases hoa : c.hasOpenAlert = true
      · simp [monitorWebsite, ProbeOutcome.isFailure, hex, hb, hh, hoa, hf,
          Effect.isCheckAppend, Effect.isPerfAppend, Effect.isAlertMutation,
          Effect.isEmailDispatch, Effect.isProjectUpdate]
      · simp [monitorWebsite, ProbeOutcome.isFailure, hex, hb, hh, hoa, hf,
          Effect.isCheckAppend, Effect.isPerfAppend, Effect.isAlertMutation,
          Effect.isEmailDispatch, Effect.isProjectUpdate]
  · by_cases hoa : c.hasOpenAlert = true
    · simp [monitorWebsite, ProbeOutcome.isFailure, hex, hb, hoa, Effect.isCheckAppend,
        Effect.isPerfAppend, Effect.isAlertMutation, Effect.isEmailDispatch,
        Effect.isProjectUpdate]
    · simp [monitorWebsite, ProbeOutcome.isFailure, hex, hb, hoa, Effect.isCheckAppend,
        Effect.isPerfAppend, Effect.isAlertMutation, Effect.isEmailDispatch,
        Effect.isProjectUpdate]

theorem tick_effect_frame_witness :
    tickOkCtx.websiteStillExists = true ∧
    ((monitorWebsite tickOkCtx okOutcome).filter Effect.isProjectUpdate).length = 1 ∧
    ((monitorWebsite tickOkCtx okOutcome).filter Effect.isAlertMutation).length ≤ 1 := by
  have h := tick_effect_frame tickOkCtx okOutcome rfl (by decide)
  exact ⟨rfl, h.2.2.2.2.1, h.2.2.1⟩

theorem runTick_open_le_one (wid : String) (t : TargetRef) (db : List AlertRec)
    (inp : TickInput) (h : openAlertCount wid db ≤ 1) :
    openAlertCount wid (runTick t db inp) ≤ 1 := by
  unfold runTick
  by_cases hex : inp.websiteStillExists = true
  · by_cases hsf : (inp.settingStatus == some false) = true
    · simp only [monitorWebsite, tickCtx, hex, hsf, Bool.not_true, Bool.false_eq_true,
        if_false, if_true, applyEffects, List.foldl_nil]
      exact h
    · have hb : (inp.settingStatus == some false) = false := by simpa using hsf
      rcases hout : inp.outcome with ⟨s, rt, hd, cs⟩ | ⟨code, msg⟩
      · by_cases hh : 200 ≤ s ∧ s < 300
        · simp only [monitorWebsite, tickCtx, hex, hb, hh, Bool.not_true,
            Bool.false_eq_true, if_false, applyEffects, applyEffect, List.foldl_cons,
            List.foldl_nil, List.cons_append, List.nil_append, decide_eq_true_eq,
            and_self, if_true, Bool.and_self]
          simp [hh]
          by_cases hw : t.websiteId = wid
          · rw [hw, openCount_map_resolve_self]
            exact Nat.zero_le 1
          · rw [openCount_map_resolve_other inp.now wid t.websiteId db hw]
            exact h
        · by_cases hoa : hasOpenAlertFor t.websiteId db = true
          · simp [monitorWebsite, tickCtx, hex, hb, hh, hoa, applyEffects, applyEffect]
            exact h
          · have hoa' : hasOpenAlertFor t.websiteId db = false := by simpa using hoa
            simp [monitorWebsite, tickCtx, hex, hb, hh, hoa', applyEffects, applyEffect]
            by_cases hw : t.websiteId = wid
            · rw [hw, openCount_append_create_self]
              have h0 : openAlertCount wid db = 0 :=
                hasOpen_false_count wid db (hw ▸ hoa')
              omega
            · rw [openCount_append_create_other inp.now wid t.websiteId _ db hw]
              exact h
      · by_cases hoa : hasOpenAlertFor t.websiteId db = true
        · simp [monitorWebsite, tickCtx, hex, hb, hoa, applyEffects, applyEffect]
          exact h
        · have hoa' : hasOpenAlertFor t.websiteId db = false := by simpa using hoa
          simp [monitorWebsite, tickCtx, hex, hb, hoa', applyEffects, applyEffect]
          by_cases hw : t.websiteId = wid
          · rw [hw, openCount_append_create_self]
            have h0 : openAlertCount wid db = 0 :=
              hasOpen_false_count wid db (hw ▸ hoa')
            omega
          · rw [openCount_append_create_other inp.now wid t.websiteId _ db hw]
            exact h
  · have hex' : inp.websiteStillExists = false := by simpa using hex
    simp [monitorWebsite, tickCtx, hex', applyEffects]
    exact h

theorem runSystem_open_le_one (wid : String) (db : List AlertRec)
    (steps : List (TargetRef × TickInput)) (h : openAlertCount wid db ≤ 1) :
    openAlertCount wid (runSystem db steps) ≤ 1 := by
  induction steps generalizing db with
  | nil => exact h
  | cons st steps ih =>
    simp only [runSystem, List.foldl_cons]
    exact ih _ (runTick_open_le_one wid st.1 db st.2 h)

theorem failed_tick_while_open_noop (t : TargetRef) (db : List AlertRec)
    (inp : TickInput) (hopen : hasOpenAlertFor t.websiteId db = true)
    (hfail : inp.outcome.isFailure = true) :
    runTick t db inp = db ∧
    (monitorWebsite (tickCtx t db inp) inp.outcome).all
      (fun e => !e.isAlertCreate && !e.isEmailDispatch) = true := by
  unfold runTick
  by_cases hex : inp.websiteStillExists = true
  · by_cases hsf : (inp.settingStatus == some false) = true
    · constructor <;>
        simp [monitorWebsite, tickCtx, hex, hsf, applyEffects]
    · have hb : (inp.settingStatus == some false) = false := by simpa using hsf
      rcases hout : inp.outcome with ⟨s, rt, hd, cs⟩ | ⟨code, msg⟩
      · have hfp : s < 200 ∨ 300 ≤ s := by
          rw [hout] at hfail
          simpa [ProbeOutcome.isFailure, Decidable.not_and_iff_or_not] using hfail
        have hh : ¬(200 ≤ s ∧ s < 300) := by omega
        constructor
        · simp [monitorWebsite, tickCtx, hex, hb, hout, hh, hopen, applyEffects,
            applyEffect]
        · simp [monitorWebsite, tickCtx, hex, hb, hout, hh, hopen, Effect.isAlertCreate,
            Effect.isEmailDispatch]
      · constructor
        · simp [monitorWebsite, tickCtx, hex, hb, hout, hopen, applyEffects, applyEffect]
        · simp [monitorWebsite, tickCtx, hex, hb, hout, hopen, Effect.isAlertCreate,
            Effect.isEmailDispatch]
  · have hex' : inp.websiteStillExists = false := by simpa using hex
    constructor <;>
      simp [monitorWebsite, tickCtx, hex', applyEffects]

/-! ## Claim C3 -/

/-- Claim C3: starting from a store with at most one open alert for a
website, any interleaved sequence of ticks keeps the store at no more than
one open alert for that website; and a failed probe while an open alert
exists for the ticked website leaves the alert store unchanged (no new
AlertRecord) and its tick issues no alert-creation and no notification
effect. -/
theorem alert_open_dedup_invariant (wid : String) (db : List AlertRec)
    (steps : List (TargetRef × TickInput)) (t : TargetRef) (db' : List AlertRec)
    (inp : TickInput)
    (hle : openAlertCount wid db ≤ 1)
    (hopen : hasOpenAlertFor t.websiteId db' = true)
    (hfail : inp.outcome.isFailure = true) :
    openAlertCount wid (runSystem db steps) ≤ 1 ∧
    runTick t db' inp = db' ∧
    (monitorWebsite (tickCtx t db' inp) inp.outcome).all
      (fun e => !e.isAlertCreate && !e.isEmailDispatch) = true :=
  ⟨runSystem_open_le_one wid db steps hle,
   (failed_tick_while_open_noop t db' inp hopen hfail).1,
   (failed_tick_while_open_noop t db' inp hopen hfail).2⟩

theorem alert_open_dedup_invariant_witness :
    openAlertCount "w1" (runSystem [] sampleSteps) ≤ 1 ∧
    runTick sampleTarget openDb failInp = openDb ∧
    (monitorWebsite (tickCtx sampleTarget openDb failInp) failInp.outcome).all
      (fun e => !e.isAlertCreate && !e.isEmailDispatch) = true :=
  alert_open_dedup_invariant "w1" [] sampleSteps sampleTarget openDb failInp
    (by decide) (by decide) (by decide)

/-! ## Claim C5 -/

theorem zip_map_changed_count (wid : String) (now : Nat) (db : List AlertRec) :
    ((db.zip (db.map (fun a =>
        if a.isOpenFor wid then { a with resolvedAt := some now } else a))).filter
      (fun ab => !(ab.1 == ab.2))).length = openAlertCount wid db := by
  induction db with
  | nil => rfl
  | cons a l ih =>
    unfold openAlertCount at ih ⊢
    simp only [List.map_cons, List.zip_cons_cons, List.filter_cons]
    by_cases hb : a.isOpenFor wid = true
    · obtain ⟨hwid, hres⟩ : a.websiteId = wid ∧ a.resolvedAt = none := by
        simpa [AlertRec.isOpenFor] using hb
      have hne : ¬(a = AlertRec.mk a.websiteId a.message a.raisedAt (some now)) := by
        intro heq
        have hproj : a.resolvedAt = some now := congrArg AlertRec.resolvedAt heq
        rw [hres] at hproj
        exact Option.noConfusion hproj
      simp [hb, hne, ih]
    · have hfa : (if a.isOpenFor wid = true then { a with resolvedAt := some now } else a)
          = a := if_neg hb
      simp [hfa, hb, ih]

/-- Claim C5: with the website in the Open state (exactly the one open alert
the dedup invariant allows), a guard-passing successful probe tick resolves
it: the store keeps the same number of AlertRecords (zero created), exactly
one record is changed by the tick, and afterwards the website has zero open
alerts. -/
theorem success_tick_closes_exactly_one_alert (t : TargetRef) (db : List AlertRec)
    (inp : TickInput) (s rt : Nat) (hd : List (String × String)) (cs : Option Nat)
    (hout : inp.outcome = ProbeOutcome.completed s rt hd cs)
    (hs : 200 ≤ s) (hs2 : s < 300)
    (hex : inp.websiteStillExists = true)
    (hst : inp.settingStatus ≠ some false)
    (hopen : openAlertCount t.websiteId db = 1) :
    (runTick t db inp).length = db.length ∧
    openAlertCount t.websiteId (runTick t db inp) = 0 ∧
    ((db.zip (runTick t db inp)).filter (fun ab => !(ab.1 == ab.2))).length = 1 := by
  have hb : (inp.settingStatus == some false) = false := by simpa using hst
  have hh : 200 ≤ s ∧ s < 300 := ⟨hs, hs2⟩
  have hrt : runTick t db inp =
      db.map (fun a =>
        if a.isOpenFor t.websiteId then { a with resolvedAt := some inp.now } else a) := by
    simp [runTick, monitorWebsite, tickCtx, hout, hex, hb, hh, applyEffects, applyEffect]
  refine ⟨?_, ?_, ?_⟩
  · rw [hrt, List.length_map]
  · rw [hrt, openCount_map_resolve_self]
  · rw [hrt, zip_map_changed_count, hopen]

theorem success_tick_closes_exactly_one_alert_witness :
    openAlertCount sampleTarget.websiteId openDb = 1 ∧
    ((runTick sampleTarget openDb okInp).length = openDb.length ∧
      openAlertCount sampleTarget.websiteId (runTick sampleTarget openDb okInp) = 0 ∧
      ((openDb.zip (runTick sampleTarget openDb okInp)).filter
          (fun ab => !(ab.1 == ab.2))).length = 1) :=
  ⟨by decide,
   success_tick_closes_exactly_one_alert sampleTarget openDb okInp 200 123
     [("server", "nginx")] (some 512) rfl (by decide) (by decide) rfl (by decide)
     (by decide)⟩

end Pulse
